import Mathlib

/-!
Shallow embedding of the `cc-casino` Solana program (Rust, Anchor) and
verification of its natural-language specification.

Modelling conventions:
* Machine integers (`u8`, `u16`, `u32`, `u64`, `i64`) are embedded as `Nat`
  (resp. `Int` for `i64`), with wraparound made explicit: on-chain Solana
  programs are release builds, where plain Rust `+ - *` wrap modulo `2^w`.
  `wrapMul64`/`wrapSub64` model plain `u64` arithmetic;
  `checkedAdd64`/`checkedMul64` model `checked_add`/`checked_mul`, which
  return `None` on overflow (the program then calls `.unwrap()`, a panic).
* A Rust panic (`unwrap` of `None`, division or remainder by zero, index
  out of bounds) aborts the whole transaction; it is modelled as the
  distinguished outcome `Err.panicked`, distinct from the program's own
  `CasinoError` returns (`Err.casino e`).
* Anchor `#[account(constraint = ... @ Error)]` checks run, in account
  declaration order, before the instruction handler body; they are embedded
  as the leading `if`-guards of each handler function.
* Each instruction executes atomically: it either fails (no state written)
  or succeeds returning the updated records, so handlers are total functions
  into `Except Err σ`. Token transfers and PDA addressing are external
  collaborators and are abstracted: account keys become `Nat` identifiers,
  escrow balances are passed in as values.
* 32-byte seeds (`[u8; 32]`) are embedded as `Fin 32 → Nat` with byte
  bounds (`< 256`) taken as hypotheses where they matter.
-/

namespace CCCasino

/-! ## Machine arithmetic -/

/-- Modulus of `u64` arithmetic. -/
def U64M : Nat := 2 ^ 64

/-- Modulus of `u32` arithmetic. -/
def U32M : Nat := 2 ^ 32

/-- Rust `u64::checked_add`: `none` on overflow. -/
def checkedAdd64 (a b : Nat) : Option Nat :=
  if a + b < U64M then some (a + b) else none

/-- Rust `u64::checked_mul`: `none` on overflow. -/
def checkedMul64 (a b : Nat) : Option Nat :=
  if a * b < U64M then some (a * b) else none

/-- Plain (release-build, wrapping) `u64` multiplication. -/
def wrapMul64 (a b : Nat) : Nat := a * b % U64M

/-- Plain (release-build, wrapping) `u64` subtraction `a - b`, for `b ≤ 2^64`. -/
def wrapSub64 (a b : Nat) : Nat := (a + U64M - b) % U64M

/-- Plain (release-build, wrapping) `u32` addition. -/
def wrapAdd32 (a b : Nat) : Nat := (a + b) % U32M

/-- Plain (release-build, wrapping) `u32` multiplication. -/
def wrapMul32 (a b : Nat) : Nat := a * b % U32M

/-- Rust `i64 as u32` truncating cast. -/
def i64AsU32 (x : Int) : Nat := (x % (U32M : Int)).toNat

/-- Rust `/` on `u64`: panics (`none`) on a zero divisor. -/
def rustDiv (a b : Nat) : Option Nat :=
  if b = 0 then none else some (a / b)

/-- Rust `%` on integers: panics (`none`) on a zero divisor. -/
def rustMod (a b : Nat) : Option Nat :=
  if b = 0 then none else some (a % b)

/-- Little-endian reassembly of four bytes, as in `u32::from_le_bytes`. -/
def u32_from_le_bytes (b0 b1 b2 b3 : Nat) : Nat :=
  b0 + 256 * b1 + 256 ^ 2 * b2 + 256 ^ 3 * b3

/-- Byte `i` of the little-endian encoding of `v`, as in `to_le_bytes`. -/
def leByte (v i : Nat) : Nat := v / 256 ^ i % 256

/-- Byte arrays (`Fin n → Nat`) compared by a bounded scan, which the
kernel can evaluate (the generic `Fintype` pi instance gets stuck on an
`Eq.rec` during reduction). -/
instance instDecEqByteArray {n : Nat} : DecidableEq (Fin n → Nat) := fun f g =>
  decidable_of_iff (∀ k (h : k < n), f ⟨k, h⟩ = g ⟨k, h⟩)
    ⟨fun H => funext fun i => H i.1 i.2, fun H k h => by rw [H]⟩

/-! ## Game types (`state.rs`) -/

/-- Rust enum `GameType`. -/
inductive GameType
  | CoinFlip
  | Crash
  | Jackpot
  | Gacha
  deriving DecidableEq, Repr

/-- Rust enum `CoinChoice`. -/
inductive CoinChoice
  | Heads
  | Tails
  deriving DecidableEq, Repr

/-- Rust enum `BetOutcome`. -/
inductive BetOutcome
  | Pending
  | Win
  | Lose
  deriving DecidableEq, Repr

/-- Rust enum `RoundPhase`. -/
inductive RoundPhase
  | Betting
  | Active
  | Ended
  deriving DecidableEq, Repr

/-- Rust enum `PrizeTier`. -/
inductive PrizeTier
  | Common
  | Rare
  | Epic
  | Legendary
  deriving DecidableEq, Repr

/-- Errors of `lib.rs` (`CasinoError`). -/
inductive CasinoError
  | BetTooSmall
  | BetTooLarge
  | InsufficientEscrow
  | GameNotActive
  | RoundNotBetting
  | RoundEnded
  | AlreadyJoined
  | NotInRound
  | AlreadyCashedOut
  | CrashedOut
  | InvalidVrfProof
  | AlreadyResolved
  | Unauthorized
  | InvalidPullCount
  | CooldownActive
  deriving DecidableEq, Repr

/-- Failure outcome of an instruction: a returned program error, or a Rust
panic (`unwrap` on `None`, division/remainder by zero, out-of-bounds index),
which aborts the transaction. -/
inductive Err
  | casino (e : CasinoError)
  | panicked
  deriving DecidableEq, Repr

/-! ## Account structures (`state.rs`) -/

/-- Rust struct `GameConfig`. -/
structure GameConfig where
  min_bet : Nat
  max_bet : Nat
  house_edge_bps : Nat
  platform_fee_lamports : Nat
  cooldown_seconds : Nat
  deriving DecidableEq, Repr

/-- Rust struct `GameState` (pubkeys and slug abstracted to `Nat` ids;
`escrow_bump` kept as data). -/
structure GameState where
  authority : Nat
  game_type : GameType
  config : GameConfig
  escrow_bump : Nat
  is_active : Bool
  total_volume : Nat
  total_fees : Nat
  current_round : Nat
  created_at : Int
  deriving DecidableEq, Repr

/-- Rust struct `PlayerBet`. -/
structure PlayerBet where
  player : Nat
  game : Nat
  round_number : Nat
  bet_amount : Nat
  fee_amount : Nat
  bet_choice : Nat
  outcome : BetOutcome
  payout_amount : Nat
  vrf_result : Fin 32 → Nat
  bet_at : Int
  resolved_at : Int
  bump : Nat
  deriving DecidableEq, Repr

/-- Rust struct `RoundState`. -/
structure RoundState where
  game : Nat
  round_number : Nat
  phase : RoundPhase
  pool_size : Nat
  participant_count : Nat
  vrf_result : Fin 32 → Nat
  result : Fin 32 → Nat
  started_at : Int
  betting_ends_at : Int
  ended_at : Int
  bump : Nat
  deriving DecidableEq, Repr

/-- Rust struct `RoundParticipant`. -/
structure RoundParticipant where
  player : Nat
  round : Nat
  bet_amount : Nat
  cashed_out : Bool
  cashout_multiplier : Nat
  payout : Nat
  joined_at : Int
  cashed_out_at : Int
  bump : Nat
  deriving DecidableEq, Repr

/-- Rust struct `GachaPullResult`. -/
structure GachaPullResult where
  player : Nat
  game : Nat
  pull_count : Nat
  tiers : Fin 10 → Nat
  total_payout : Nat
  vrf_result : Fin 32 → Nat
  resolved : Bool
  pulled_at : Int
  bump : Nat
  deriving DecidableEq, Repr

/-! ## Pure derivation helpers (`state.rs`) -/

/-- `PrizeTier::from_random`: the cumulative byte-to-tier table. The Rust
match is on `u8`, so the final arm covers 253–255; inputs ≥ 256 do not occur
for byte arguments. -/
def PrizeTier.from_random (random : Nat) : PrizeTier :=
  if random ≤ 189 then .Common
  else if random ≤ 240 then .Rare
  else if random ≤ 252 then .Epic
  else .Legendary

/-- `PrizeTier::multiplier_bps`. -/
def PrizeTier.multiplier_bps : PrizeTier → Nat
  | .Common => 5000
  | .Rare => 20000
  | .Epic => 50000
  | .Legendary => 100000

/-- Rust `tier as u8` on `PrizeTier` (enum discriminant). -/
def PrizeTier.toU8 : PrizeTier → Nat
  | .Common => 0
  | .Rare => 1
  | .Epic => 2
  | .Legendary => 3

/-- Rust `matches!(tier, Rare | Epic | Legendary)`. -/
def PrizeTier.isRareOrBetter : PrizeTier → Bool
  | .Common => false
  | _ => true

/-- Rust `u32::clamp(min, max)` (with `min ≤ max`). -/
def u32clamp (x lo hi : Nat) : Nat :=
  if x < lo then lo else if x > hi then hi else x

/-- `calculate_crash_point` from `state.rs`.

The Rust body computes, in `f64` arithmetic,
`normalized = random / (u32::MAX)`, `adjusted = normalized * (1.0 - 0.03)`,
branches on `adjusted == 0.0`, and otherwise takes
`((0.99 / (1.0 - adjusted)) * 10000.0) as u32` before clamping.

`adjusted == 0.0` holds exactly when `random = 0`: `random as f64` is exact
for a `u32`, a finite quotient `x / c` (`c` finite, nonzero) is `0.0` only
for `x = 0.0`, and multiplying the smallest possible nonzero quotient
(≈ 2.3e-10) by `0.97` cannot underflow to zero in `f64`. The value of the
remaining floating-point expression, already cast `as u32`, is kept abstract
as the function argument `fpCrashBps`; every theorem below is insensitive to
it because the non-zero branch ends in `.clamp(10000, 1000000)`. -/
def calculate_crash_point (fpCrashBps : Nat → Nat) (vrf_result : Fin 32 → Nat) : Nat :=
  let random := u32_from_le_bytes (vrf_result 0) (vrf_result 1) (vrf_result 2) (vrf_result 3)
  if random = 0 then 100
  else u32clamp (fpCrashBps random) 10000 1000000

/-- An exact-rational idealization of the floating-point expression
`((0.99 / (1.0 - (random / (2^32 - 1)) * 0.97)) * 10000.0) as u32` used to
instantiate `calculate_crash_point` at concrete seeds
(`990000 * (2^32-1) / (100 * (2^32-1) - 97 * random)`, saturated at
`u32::MAX` as the Rust float-to-int cast is). -/
def crashFpRat (random : Nat) : Nat :=
  min (990000 * (U32M - 1) / (100 * (U32M - 1) - 97 * random)) (U32M - 1)

/-- `calculate_coinflip_result` from `state.rs`. -/
def calculate_coinflip_result (vrf_result : Fin 32 → Nat) : CoinChoice :=
  if vrf_result 0 % 2 = 0 then .Heads else .Tails

/-- `calculate_jackpot_winner` from `state.rs`: `random % total_tickets`
with no zero guard, so a zero ticket count is a panic (`none`). -/
def calculate_jackpot_winner (vrf_result : Fin 32 → Nat) (total_tickets : Nat) : Option Nat :=
  let random := u32_from_le_bytes (vrf_result 0) (vrf_result 1) (vrf_result 2) (vrf_result 3)
  rustMod random total_tickets

/-! ## Coinflip instructions (`instructions/coinflip.rs`) -/

/-- `play_coinflip`: the `PlayCoinflip` account constraints (`is_active`,
`game_type == CoinFlip`, both surfaced as `GameNotActive`) followed by
`play_handler`. `escrow_amount` is the escrow token balance; the two token
transfers are external and assumed to succeed; `choice as u8` stores 0 for
Heads, 1 for Tails. -/
def coinflip.play_handler (game : GameState) (escrow_amount : Nat)
    (playerId gameId : Nat) (now : Int) (bump : Nat)
    (bet_amount : Nat) (choice : CoinChoice) : Except Err (GameState × PlayerBet) :=
  if game.is_active = false then .error (.casino .GameNotActive)
  else if game.game_type ≠ .CoinFlip then .error (.casino .GameNotActive)
  else if bet_amount < game.config.min_bet then .error (.casino .BetTooSmall)
  else if bet_amount > game.config.max_bet then .error (.casino .BetTooLarge)
  else
    let house_edge := game.config.house_edge_bps
    let multiplier := wrapSub64 20000 (house_edge * 2)
    let potential_payout := wrapMul64 bet_amount multiplier / 10000
    if escrow_amount < potential_payout then .error (.casino .InsufficientEscrow)
    else
      let fee := game.config.platform_fee_lamports
      let bet : PlayerBet := {
        player := playerId, game := gameId, round_number := 0,
        bet_amount := bet_amount, fee_amount := fee,
        bet_choice := (match choice with | .Heads => 0 | .Tails => 1),
        outcome := .Pending, payout_amount := 0,
        vrf_result := fun _ => 0, bet_at := now, resolved_at := 0, bump := bump }
      match checkedAdd64 game.total_volume bet_amount with
      | none => .error .panicked
      | some tv =>
        match checkedAdd64 game.total_fees fee with
        | none => .error .panicked
        | some tf =>
          .ok ({ game with total_volume := tv, total_fees := tf }, bet)

/-- `resolve_coinflip`: the `ResolveCoinflip` constraint
`player_bet.outcome == Pending @ AlreadyResolved` followed by
`resolve_handler`. The payout transfer is external; on error nothing is
written, so the bet record keeps its previous contents. -/
def coinflip.resolve_handler (game : GameState) (bet : PlayerBet)
    (now : Int) (vrf_result : Fin 32 → Nat) : Except Err PlayerBet :=
  if bet.outcome ≠ .Pending then .error (.casino .AlreadyResolved)
  else
    let result := calculate_coinflip_result vrf_result
    let choice := if bet.bet_choice = 0 then CoinChoice.Heads else CoinChoice.Tails
    let payout := if result = choice then
        wrapMul64 bet.bet_amount (wrapSub64 20000 (game.config.house_edge_bps * 2)) / 10000
      else 0
    .ok { bet with
      outcome := if result = choice then .Win else .Lose,
      payout_amount := payout,
      vrf_result := vrf_result,
      resolved_at := now }

/-! ## Crash instructions (`instructions/crash.rs`) -/

/-- `start_crash_round`: constraints `has_one = authority @ Unauthorized`
and `game_type == Crash @ GameNotActive`, then `start_round_handler`.
`current_round` is a `u32` incremented with plain (wrapping) addition. -/
def crash.start_round_handler (game : GameState) (authority_signer gameId : Nat)
    (now : Int) (bump : Nat) : Except Err (GameState × RoundState) :=
  if game.authority ≠ authority_signer then .error (.casino .Unauthorized)
  else if game.game_type ≠ .Crash then .error (.casino .GameNotActive)
  else
    let game' := { game with current_round := (game.current_round + 1) % U32M }
    .ok (game', {
      game := gameId, round_number := game'.current_round, phase := .Betting,
      pool_size := 0, participant_count := 0,
      vrf_result := fun _ => 0, result := fun _ => 0,
      started_at := now, betting_ends_at := now + 10, ended_at := 0, bump := bump })

/-- `join_crash`: constraints `game_state.is_active @ GameNotActive` and
`round_state.phase == Betting @ RoundNotBetting` (note `JoinCrash` has no
`game_type` constraint), then `join_handler`. `pool_size` grows with
`checked_add(..).unwrap()` (panic on overflow), `participant_count` with
plain `u32` addition. -/
def crash.join_handler (game : GameState) (round : RoundState)
    (playerId roundId : Nat) (now : Int) (bump : Nat)
    (bet_amount : Nat) : Except Err (RoundState × RoundParticipant) :=
  if game.is_active = false then .error (.casino .GameNotActive)
  else if round.phase ≠ .Betting then .error (.casino .RoundNotBetting)
  else if bet_amount < game.config.min_bet then .error (.casino .BetTooSmall)
  else if bet_amount > game.config.max_bet then .error (.casino .BetTooLarge)
  else
    let participant : RoundParticipant := {
      player := playerId, round := roundId, bet_amount := bet_amount,
      cashed_out := false, cashout_multiplier := 0, payout := 0,
      joined_at := now, cashed_out_at := 0, bump := bump }
    match checkedAdd64 round.pool_size bet_amount with
    | none => .error .panicked
    | some ps =>
      .ok ({ round with
             pool_size := ps,
             participant_count := (round.participant_count + 1) % U32M }, participant)

/-- `cashout_crash`: constraints `round_state.phase == Active
@ RoundNotBetting` (checked first, in account order) and
`!participant.cashed_out @ AlreadyCashedOut`, then `cashout_handler`.
The multiplier is `10000 + (elapsed as u32 * 100)` in wrapping `u32`
arithmetic; the payout multiplication is plain (wrapping) `u64`. The round
account is not mutable in `CashoutCrash`, so only the participant is
written. -/
def crash.cashout_handler (game : GameState) (round : RoundState)
    (participant : RoundParticipant) (now : Int) : Except Err RoundParticipant :=
  if round.phase ≠ .Active then .error (.casino .RoundNotBetting)
  else if participant.cashed_out then .error (.casino .AlreadyCashedOut)
  else
    let elapsed := now - round.started_at
    let multiplier := wrapAdd32 10000 (wrapMul32 (i64AsU32 elapsed) 100)
    let payout := wrapMul64 participant.bet_amount multiplier / 10000
    .ok { participant with
          cashed_out := true,
          cashout_multiplier := multiplier,
          payout := payout,
          cashed_out_at := now }

/-- `resolve_crash`: constraint `round_state.phase != Ended @ RoundEnded`,
then `resolve_handler`: stores the seed, writes the crash point into the
first four result bytes, and moves the phase to `Ended`. -/
def crash.resolve_handler (fpCrashBps : Nat → Nat) (round : RoundState)
    (now : Int) (vrf_result : Fin 32 → Nat) : Except Err RoundState :=
  if round.phase = .Ended then .error (.casino .RoundEnded)
  else
    let crash_point := calculate_crash_point fpCrashBps vrf_result
    .ok { round with
      vrf_result := vrf_result,
      result := fun i => if (i : Nat) < 4 then leByte crash_point (i : Nat) else round.result i,
      phase := .Ended,
      ended_at := now }

/-! ## Jackpot instructions (`instructions/jackpot.rs`) -/

/-- `enter_jackpot`: constraints `is_active` and `game_type == Jackpot`
(both `GameNotActive`) and `round_state.phase == Betting @ RoundNotBetting`,
then `enter_handler`. The bet is `ticket_amount * min_bet`
(`checked_mul(..).unwrap()`); only a `BetTooLarge` bound is enforced — the
handler has no `BetTooSmall` check. The participant is `init_if_needed`, a
zeroed record on first use, distinguished by `joined_at == 0`. -/
def jackpot.enter_handler (game : GameState) (round : RoundState)
    (participant : RoundParticipant) (playerId roundId : Nat) (now : Int)
    (bump : Nat) (ticket_amount : Nat) : Except Err (RoundState × RoundParticipant) :=
  if game.is_active = false then .error (.casino .GameNotActive)
  else if game.game_type ≠ .Jackpot then .error (.casino .GameNotActive)
  else if round.phase ≠ .Betting then .error (.casino .RoundNotBetting)
  else
    match checkedMul64 ticket_amount game.config.min_bet with
    | none => .error .panicked
    | some bet_amount =>
      if bet_amount > game.config.max_bet then .error (.casino .BetTooLarge)
      else if participant.joined_at = 0 then
        match checkedAdd64 round.pool_size bet_amount with
        | none => .error .panicked
        | some ps =>
          .ok ({ round with
                 pool_size := ps,
                 participant_count := (round.participant_count + 1) % U32M },
               { participant with
                 player := playerId, round := roundId, bet_amount := bet_amount,
                 joined_at := now, bump := bump })
      else
        match checkedAdd64 participant.bet_amount bet_amount with
        | none => .error .panicked
        | some ba =>
          match checkedAdd64 round.pool_size bet_amount with
          | none => .error .panicked
          | some ps =>
            .ok ({ round with
                   pool_size := ps,
                   participant_count := round.participant_count },
                 { participant with bet_amount := ba })

/-- `draw_jackpot`: constraint `round_state.phase == Betting @ RoundEnded`,
then `draw_handler`: `total_tickets = pool_size / min_bet` (Rust `/`,
panics when `min_bet = 0`), the winner index via
`calculate_jackpot_winner(.., total_tickets as u32)` (panics when the
truncated ticket count is zero), the house cut by plain (wrapping) `u64`
multiplication, and the payout `pool_size - house_cut` by plain `u64`
subtraction. Returns the updated round and the payout amount transferred to
the winner account (winner selection among participants is external;
`winnerKey` is the 32-byte winner key written into `result`). -/
def jackpot.draw_handler (game : GameState) (round : RoundState)
    (winnerKey : Fin 32 → Nat) (now : Int) (vrf_result : Fin 32 → Nat) :
    Except Err (RoundState × Nat) :=
  if round.phase ≠ .Betting then .error (.casino .RoundEnded)
  else
    match rustDiv round.pool_size game.config.min_bet with
    | none => .error .panicked
    | some total_tickets =>
      match calculate_jackpot_winner vrf_result (total_tickets % U32M) with
      | none => .error .panicked
      | some _winner_index =>
        let house_cut := wrapMul64 round.pool_size game.config.house_edge_bps / 10000
        let payout := wrapSub64 round.pool_size house_cut
        .ok ({ round with
               vrf_result := vrf_result, phase := .Ended, ended_at := now,
               result := winnerKey }, payout)

/-! ## Gacha instructions (`instructions/gacha.rs`) -/

/-- `pull_gacha`: constraints `is_active` and `game_type == Gacha`, the
pull-count bound 1–10, the cost `min_bet * pulls` (`checked_mul`), a
`BetTooLarge` bound, and creation of an unresolved `GachaPullResult`. -/
def gacha.pull_handler (game : GameState) (playerId gameId : Nat) (now : Int)
    (bump : Nat) (pulls : Nat) : Except Err (GameState × GachaPullResult) :=
  if game.is_active = false then .error (.casino .GameNotActive)
  else if game.game_type ≠ .Gacha then .error (.casino .GameNotActive)
  else if ¬ (1 ≤ pulls ∧ pulls ≤ 10) then .error (.casino .InvalidPullCount)
  else
    match checkedMul64 game.config.min_bet pulls with
    | none => .error .panicked
    | some total_cost =>
      if total_cost > game.config.max_bet then .error (.casino .BetTooLarge)
      else
        match checkedAdd64 game.total_volume total_cost with
        | none => .error .panicked
        | some tv =>
          .ok ({ game with total_volume := tv },
               { player := playerId, game := gameId, pull_count := pulls,
                 tiers := fun _ => 0, total_payout := 0,
                 vrf_result := fun _ => 0, resolved := false,
                 pulled_at := now, bump := bump })

/-- Write `v` into slot `i` of a 10-byte tier array (`tiers[i] = v`). -/
def setTier (t : Fin 10 → Nat) (i : Nat) (v : Nat) : Fin 10 → Nat :=
  fun j => if (j : Nat) = i then v else t j

/-- Raw tier of pull index `i`: `PrizeTier::from_random(vrf_result[i % 32])`. -/
def rawTier (vrf : Fin 32 → Nat) (i : Nat) : PrizeTier :=
  PrizeTier.from_random (vrf ⟨i % 32, Nat.mod_lt i (by omega)⟩)

/-- One iteration of the `resolve_handler` loop of `gacha.rs`, at pull
index `i`, on the state (tier array, running `total_payout`,
`has_rare_or_better`). An index outside the 10-slot tier array is a panic
(`none`), as is `checked_add(..).unwrap()` overflowing. The pity branch
(`i == 9 && !has_rare_or_better`) records `Rare` and its payout regardless
of the raw byte; the regular branch records the raw tier and folds
`matches!(tier, Rare | Epic | Legendary)` into the flag. Payout
contributions use a plain (wrapping) `u64` multiplication before the
division. -/
def gachaStep (cost : Nat) (vrf : Fin 32 → Nat) (i : Nat)
    (st : (Fin 10 → Nat) × Nat × Bool) : Option ((Fin 10 → Nat) × Nat × Bool) :=
  if i < 10 then
    let tier := rawTier vrf i
    if i = 9 ∧ st.2.2 = false then
      (checkedAdd64 st.2.1 (wrapMul64 cost (PrizeTier.multiplier_bps .Rare) / 10000)).map
        (fun t => (setTier st.1 i (PrizeTier.toU8 .Rare), t, st.2.2))
    else
      (checkedAdd64 st.2.1 (wrapMul64 cost tier.multiplier_bps / 10000)).map
        (fun t => (setTier st.1 i tier.toU8, t, st.2.2 || tier.isRareOrBetter))
  else none

/-- The `for i in 0..pull_count` loop of gacha `resolve_handler`:
`gachaLoop cost vrf n st` runs `gachaStep` on indices `0, …, n-1` in order. -/
def gachaLoop (cost : Nat) (vrf : Fin 32 → Nat) :
    Nat → ((Fin 10 → Nat) × Nat × Bool) → Option ((Fin 10 → Nat) × Nat × Bool)
  | 0, st => some st
  | n + 1, st => (gachaLoop cost vrf n st).bind (gachaStep cost vrf n)

/-- `resolve_gacha`: constraint `!pull_result.resolved @ AlreadyResolved`,
then the resolution loop, then the batch record is finalized (seed, total
payout, `resolved = true`); the payout transfer is external. -/
def gacha.resolve_handler (game : GameState) (pr : GachaPullResult)
    (vrf_result : Fin 32 → Nat) : Except Err GachaPullResult :=
  if pr.resolved then .error (.casino .AlreadyResolved)
  else
    match gachaLoop game.config.min_bet vrf_result pr.pull_count (pr.tiers, 0, false) with
    | none => .error .panicked
    | some out =>
      .ok { pr with
            tiers := out.1,
            total_payout := out.2.1,
            vrf_result := vrf_result,
            resolved := true }

/-! ## Round-level transition system

`RoundStep fp r r'` holds when some successful instruction execution
rewrites a stored round `r` to `r'`; the quantification over all other
inputs (game state, participants, clock, seeds) makes it an
over-approximation of what any on-chain caller can do to a round account.
`cashout_crash` does not appear: its `round_state` account is not `mut`.
`fp` abstracts the floating-point core of `calculate_crash_point`. -/

inductive RoundStep (fp : Nat → Nat) : RoundState → RoundState → Prop
  | join (game : GameState) (playerId roundId : Nat) (now : Int) (bump : Nat)
      (bet_amount : Nat) (r r' : RoundState) (p : RoundParticipant) :
      crash.join_handler game r playerId roundId now bump bet_amount = .ok (r', p) →
      RoundStep fp r r'
  | resolveCrash (now : Int) (vrf : Fin 32 → Nat) (r r' : RoundState) :
      crash.resolve_handler fp r now vrf = .ok r' →
      RoundStep fp r r'
  | enterJackpot (game : GameState) (participant : RoundParticipant)
      (playerId roundId : Nat) (now : Int) (bump : Nat) (ticket_amount : Nat)
      (r r' : RoundState) (p : RoundParticipant) :
      jackpot.enter_handler game r participant playerId roundId now bump ticket_amount
        = .ok (r', p) →
      RoundStep fp r r'
  | drawJackpot (game : GameState) (winnerKey : Fin 32 → Nat) (now : Int)
      (vrf : Fin 32 → Nat) (r r' : RoundState) (payout : Nat) :
      jackpot.draw_handler game r winnerKey now vrf = .ok (r', payout) →
      RoundStep fp r r'

/-- Rounds reachable from creation by `start_crash_round` through any
sequence of successful instruction executions. -/
inductive ReachableRound (fp : Nat → Nat) : RoundState → Prop
  | start (game : GameState) (authority_signer gameId : Nat) (now : Int) (bump : Nat)
      (g' : GameState) (r : RoundState) :
      crash.start_round_handler game authority_signer gameId now bump = .ok (g', r) →
      ReachableRound fp r
  | step (r r' : RoundState) : ReachableRound fp r → RoundStep fp r r' →
      ReachableRound fp r'

/-! ## Observation helpers and concrete fixtures

Extractor functions let closed (binder-free) statements about handler
results be evaluated by `decide`/`rfl`; the fixtures are concrete account
contents used in counterexamples and witnesses. -/

deriving instance DecidableEq for Except

/-- Position of a phase on the forward order Betting → Active → Ended. -/
def phaseIdx : RoundPhase → Nat
  | .Betting => 0
  | .Active => 1
  | .Ended => 2

/-- Whether an instruction execution succeeded. -/
def isOkE {α : Type} : Except Err α → Bool
  | .ok _ => true
  | .error _ => false

/-- Outcome and payout recorded by a successful wager resolution. -/
def outcomePayout : Except Err PlayerBet → Option (BetOutcome × Nat)
  | .ok b => some (b.outcome, b.payout_amount)
  | .error _ => none

/-- Tier byte recorded at slot `i` by a successful gacha resolution. -/
def tierAt (i : Fin 10) : Except Err GachaPullResult → Option Nat
  | .ok pr => some (pr.tiers i)
  | .error _ => none

/-- Whether a resolution succeeded, left the wager non-`Pending`, and stored
the all-zero 32-byte seed. -/
def resolvedWithAllZeroSeed : Except Err PlayerBet → Bool
  | .ok b => decide (b.outcome ≠ .Pending) && decide (∀ i, b.vrf_result i = 0)
  | .error _ => false

/-- The `GameConfig::default()` values of `state.rs`. -/
def defaultGameConfig : GameConfig :=
  { min_bet := 1000000, max_bet := 1000000000, house_edge_bps := 200,
    platform_fee_lamports := 1000000, cooldown_seconds := 0 }

/-- An active game of the given type and configuration. -/
def mkGame (t : GameType) (c : GameConfig) : GameState :=
  { authority := 1, game_type := t, config := c, escrow_bump := 255,
    is_active := true, total_volume := 0, total_fees := 0,
    current_round := 1, created_at := 0 }

/-- The all-zero 32-byte seed (also the unresolved-wager sentinel). -/
def zeroSeed : Fin 32 → Nat := fun _ => 0

/-- The all-`0xFF` 32-byte seed. -/
def ffSeed : Fin 32 → Nat := fun _ => 255

/-- A round in the given phase with the given pool. -/
def mkRound (ph : RoundPhase) (pool : Nat) : RoundState :=
  { game := 2, round_number := 1, phase := ph, pool_size := pool,
    participant_count := 0, vrf_result := zeroSeed, result := zeroSeed,
    started_at := 0, betting_ends_at := 10, ended_at := 0, bump := 254 }

/-- A zeroed (`init_if_needed`-fresh) participant record. -/
def freshParticipant : RoundParticipant :=
  { player := 0, round := 0, bet_amount := 0, cashed_out := false,
    cashout_multiplier := 0, payout := 0, joined_at := 0, cashed_out_at := 0,
    bump := 0 }

/-- A pending coinflip bet of the given amount and stored choice byte. -/
def mkPendingBet (amount choice : Nat) : PlayerBet :=
  { player := 1, game := 2, round_number := 0, bet_amount := amount,
    fee_amount := 0, bet_choice := choice, outcome := .Pending,
    payout_amount := 0, vrf_result := zeroSeed, bet_at := 0, resolved_at := 0,
    bump := 250 }

/-- An unresolved gacha pull batch of the given size. -/
def mkPull (count : Nat) : GachaPullResult :=
  { player := 1, game := 2, pull_count := count, tiers := fun _ => 0,
    total_payout := 0, vrf_result := zeroSeed, resolved := false,
    pulled_at := 0, bump := 249 }

/-- Coinflip game admitting a 1-lamport bet at a 99.99% house edge. -/
def gameTinyBet : GameState :=
  mkGame .CoinFlip
    { min_bet := 1, max_bet := 10, house_edge_bps := 9999,
      platform_fee_lamports := 0, cooldown_seconds := 0 }

/-- Coinflip game admitting bets large enough to overflow the payout
multiplication. -/
def gameHugeBet : GameState :=
  mkGame .CoinFlip
    { min_bet := 1, max_bet := 2 ^ 63, house_edge_bps := 200,
      platform_fee_lamports := 0, cooldown_seconds := 0 }

/-- Coinflip game with the default configuration. -/
def gameFlip : GameState := mkGame .CoinFlip defaultGameConfig

/-- Jackpot game with the default configuration. -/
def gameJackpot : GameState := mkGame .Jackpot defaultGameConfig

/-- Gacha game with the default configuration. -/
def gameGacha : GameState := mkGame .Gacha defaultGameConfig

/-- Crash game with the default configuration. -/
def gameCrash : GameState := mkGame .Crash defaultGameConfig

/-- Seed whose pull bytes 0–8 map to Common and whose byte 9 is 255
(raw tier Legendary). -/
def seedNinthLegendary : Fin 32 → Nat := fun i => if (i : Nat) = 9 then 255 else 0

/-- The round produced by `start_crash_round` on `gameCrash`. -/
def roundStarted : RoundState :=
  { game := 2, round_number := 2, phase := .Betting, pool_size := 0,
    participant_count := 0, vrf_result := zeroSeed, result := zeroSeed,
    started_at := 0, betting_ends_at := 10, ended_at := 0, bump := 255 }

/-- The round after a 1 $CC join of `mkRound .Betting 0`. -/
def roundJoined : RoundState :=
  { mkRound .Betting 0 with pool_size := 1000000, participant_count := 1 }

/-- The participant record written by that join. -/
def joinedParticipant : RoundParticipant :=
  { player := 1, round := 2, bet_amount := 1000000, cashed_out := false,
    cashout_multiplier := 0, payout := 0, joined_at := 0, cashed_out_at := 0,
    bump := 253 }

/-- Crash game whose configured maximum admits pool-overflowing bets. -/
def gameCrashBig : GameState :=
  mkGame .Crash
    { min_bet := 1, max_bet := 2 ^ 64 - 1, house_edge_bps := 200,
      platform_fee_lamports := 0, cooldown_seconds := 0 }

/-- A betting round whose pool is one below the `u64` limit. -/
def bigRound : RoundState := mkRound .Betting (2 ^ 64 - 1)

/-- A round in the (unreachable) `Active` phase. -/
def activeRound : RoundState := mkRound .Active 1000000

/-- The spec's worked example: a pending 10 $CC bet on Heads. -/
def betWin : PlayerBet := mkPendingBet 10000000 0

/-- That bet after resolution with the all-zero seed (Heads wins 19.6 $CC). -/
def resolvedWin : PlayerBet :=
  { betWin with outcome := .Win, payout_amount := 19600000 }

/-- A pending 1 $CC bet on Tails, resolved to a loss by the all-zero seed. -/
def lostBet : PlayerBet :=
  { mkPendingBet 1000000 1 with outcome := .Lose, resolved_at := 3 }

/-- The record produced by resolving a single pull with the all-zero seed
(byte 0 → Common, payout 0.5 $CC). -/
def resolvedPull1 : GachaPullResult :=
  match gacha.resolve_handler gameGacha (mkPull 1) zeroSeed with
  | .ok pr => pr
  | .error _ => mkPull 1

/-- The record produced by resolving a 10-pull batch with the all-zero seed:
nine Commons and the pity Rare at index 9. -/
def pityPull10 : GachaPullResult :=
  match gacha.resolve_handler gameGacha (mkPull 10) zeroSeed with
  | .ok pr => pr
  | .error _ => mkPull 10

/-- The record produced by resolving a pending 1 $CC Tails bet with the
all-`0xFF` seed (byte 0 is odd → Tails → a win). -/
def resolvedFF : PlayerBet :=
  match coinflip.resolve_handler gameFlip (mkPendingBet 1000000 1) 5 ffSeed with
  | .ok b => b
  | .error _ => mkPendingBet 1000000 1

/-- The round and payout produced by drawing a 5-ticket jackpot round
(pool 5 $CC at the default configuration) with the all-zero seed. -/
def drawnRound : RoundState × Nat :=
  match jackpot.draw_handler gameJackpot (mkRound .Betting 5000000) zeroSeed 9 zeroSeed with
  | .ok rp => rp
  | .error _ => (mkRound .Betting 5000000, 0)

/-! ## Arithmetic lemmas -/

theorem wrapSub64_eq_sub {a b : Nat} (hb : b ≤ a) (ha : a < U64M) :
    wrapSub64 a b = a - b := by
  have h64 : U64M = 18446744073709551616 := by norm_num [U64M]
  unfold wrapSub64
  rw [h64]
  omega

theorem wrapMul64_eq_mul {a b : Nat} (h : a * b < U64M) :
    wrapMul64 a b = a * b := by
  unfold wrapMul64
  exact Nat.mod_eq_of_lt h

theorem u32clamp_bounds (x lo hi : Nat) (h : lo ≤ hi) :
    lo ≤ u32clamp x lo hi ∧ u32clamp x lo hi ≤ hi := by
  unfold u32clamp
  split_ifs <;> omega

theorem checkedAdd64_some {a b c : Nat} (h : checkedAdd64 a b = some c) :
    c = a + b ∧ a + b < U64M := by
  unfold checkedAdd64 at h
  split_ifs at h with hlt
  · exact ⟨(Option.some.injEq _ _ ▸ h).symm, hlt⟩

theorem checkedMul64_some {a b c : Nat} (h : checkedMul64 a b = some c) :
    c = a * b ∧ a * b < U64M := by
  unfold checkedMul64 at h
  split_ifs at h with hlt
  · exact ⟨(Option.some.injEq _ _ ▸ h).symm, hlt⟩

theorem checkedAdd64_eq_some {a b : Nat} (h : a + b < U64M) :
    checkedAdd64 a b = some (a + b) := by
  unfold checkedAdd64
  rw [if_pos h]

theorem checkedAdd64_eq_none {a b : Nat} (h : U64M ≤ a + b) :
    checkedAdd64 a b = none := by
  unfold checkedAdd64
  rw [if_neg (by omega)]

theorem checkedMul64_eq_none {a b : Nat} (h : U64M ≤ a * b) :
    checkedMul64 a b = none := by
  unfold checkedMul64
  rw [if_neg (by omega)]

/-! ## Handler inversion lemmas -/

theorem start_round_handler_ok {game : GameState} {auth gameId : Nat} {now : Int}
    {bump : Nat} {g' : GameState} {r : RoundState}
    (h : crash.start_round_handler game auth gameId now bump = .ok (g', r)) :
    r.phase = .Betting ∧ r.pool_size = 0 := by
  unfold crash.start_round_handler at h
  split_ifs at h with h1 h2 <;> try cases h
  exact ⟨rfl, rfl⟩

theorem join_handler_ok {game : GameState} {r : RoundState} {pid rid : Nat}
    {now : Int} {bump bet : Nat} {r' : RoundState} {p : RoundParticipant}
    (h : crash.join_handler game r pid rid now bump bet = .ok (r', p)) :
    game.is_active = true ∧ r.phase = .Betting ∧
    game.config.min_bet ≤ bet ∧ bet ≤ game.config.max_bet ∧
    r.pool_size + bet < U64M ∧
    r' = { r with
           pool_size := r.pool_size + bet,
           participant_count := (r.participant_count + 1) % U32M } := by
  unfold crash.join_handler at h
  split_ifs at h with h1 h2 h3 h4 <;> try cases h
  rcases hadd : checkedAdd64 r.pool_size bet with _ | ps <;> rw [hadd] at h
  · cases h
  · obtain ⟨hps, hlt⟩ := checkedAdd64_some hadd
    injection h with h'
    cases h'
    subst hps
    exact ⟨by simpa using h1, by simpa using h2, by omega, by omega, hlt, rfl⟩

theorem crash_resolve_handler_ok {fp : Nat → Nat} {r : RoundState} {now : Int}
    {vrf : Fin 32 → Nat} {r' : RoundState}
    (h : crash.resolve_handler fp r now vrf = .ok r') :
    r.phase ≠ .Ended ∧ r'.phase = .Ended ∧ r'.pool_size = r.pool_size := by
  unfold crash.resolve_handler at h
  split_ifs at h with h1 <;> try cases h
  exact ⟨h1, rfl, rfl⟩

theorem enter_handler_ok {game : GameState} {r : RoundState}
    {part : RoundParticipant} {pid rid : Nat} {now : Int} {bump tickets : Nat}
    {r' : RoundState} {p : RoundParticipant}
    (h : jackpot.enter_handler game r part pid rid now bump tickets = .ok (r', p)) :
    game.is_active = true ∧ game.game_type = .Jackpot ∧ r.phase = .Betting ∧
    r'.phase = .Betting ∧
    ∃ k, k = tickets * game.config.min_bet ∧
      r'.pool_size = r.pool_size + k ∧ r.pool_size + k < U64M := by
  unfold jackpot.enter_handler at h
  split_ifs at h with h1 h2 h3 <;> try cases h
  all_goals split at h <;> try cases h
  all_goals rename_i ba hmul
  all_goals obtain ⟨hba, _⟩ := checkedMul64_some hmul
  all_goals split_ifs at h with h4 hJ <;> try cases h
  all_goals try (split at h <;> try cases h)
  all_goals try (split at h <;> try cases h)
  all_goals (
    rename_i ps hadd
    obtain ⟨hps, hlt⟩ := checkedAdd64_some hadd
    subst hps hba
    exact ⟨by simpa using h1, by simpa using h2, by simpa using h3, by simpa using h3,
      tickets * game.config.min_bet, rfl, rfl, hlt⟩)

theorem draw_handler_ok {game : GameState} {r : RoundState}
    {wk : Fin 32 → Nat} {now : Int} {vrf : Fin 32 → Nat}
    {r' : RoundState} {payout : Nat}
    (h : jackpot.draw_handler game r wk now vrf = .ok (r', payout)) :
    r.phase = .Betting ∧ r'.phase = .Ended ∧ r'.pool_size = r.pool_size := by
  unfold jackpot.draw_handler at h
  split_ifs at h with h1 <;> try cases h
  split at h
  · cases h
  · split at h
    · cases h
    · injection h with h'
      cases h'
      exact ⟨by simpa using h1, rfl, rfl⟩

theorem coinflip_resolve_handler_ok {game : GameState} {bet : PlayerBet}
    {now : Int} {vrf : Fin 32 → Nat} {bet' : PlayerBet}
    (h : coinflip.resolve_handler game bet now vrf = .ok bet') :
    bet.outcome = .Pending ∧ bet'.vrf_result = vrf ∧ bet'.resolved_at = now ∧
    bet'.bet_amount = bet.bet_amount ∧
    ((bet'.outcome = .Win ∧ bet'.payout_amount
        = wrapMul64 bet.bet_amount
            (wrapSub64 20000 (game.config.house_edge_bps * 2)) / 10000) ∨
     (bet'.outcome = .Lose ∧ bet'.payout_amount = 0)) := by
  unfold coinflip.resolve_handler at h
  split_ifs at h with h1 <;> try cases h
  all_goals refine ⟨by simpa using h1, rfl, rfl, rfl, ?_⟩
  · by_cases hc : calculate_coinflip_result vrf = CoinChoice.Heads
    · exact Or.inl ⟨by simp [hc], by simp [hc]⟩
    · exact Or.inr ⟨by simp [hc], by simp [hc]⟩
  · by_cases hc : calculate_coinflip_result vrf = CoinChoice.Tails
    · exact Or.inl ⟨by simp [hc], by simp [hc]⟩
    · exact Or.inr ⟨by simp [hc], by simp [hc]⟩

theorem gacha_resolve_handler_ok {game : GameState} {pr : GachaPullResult}
    {vrf : Fin 32 → Nat} {pr' : GachaPullResult}
    (h : gacha.resolve_handler game pr vrf = .ok pr') :
    pr.resolved = false ∧ pr'.resolved = true ∧
    ∃ flag, gachaLoop game.config.min_bet vrf pr.pull_count (pr.tiers, 0, false)
      = some (pr'.tiers, pr'.total_payout, flag) := by
  unfold gacha.resolve_handler at h
  split_ifs at h with h1 <;> try cases h
  rcases hloop : gachaLoop game.config.min_bet vrf pr.pull_count (pr.tiers, 0, false)
      with _ | out <;> rw [hloop] at h
  · cases h
  · injection h with h'
    cases h'
    exact ⟨by simpa using h1, rfl, out.2.2, by simpa using hloop⟩

theorem pull_handler_ok {game : GameState} {pid gid : Nat} {now : Int}
    {bump pulls : Nat} {out : GameState × GachaPullResult}
    (h : gacha.pull_handler game pid gid now bump pulls = .ok out) :
    1 ≤ pulls ∧ pulls ≤ 10 ∧
    out.1.total_volume = game.total_volume + game.config.min_bet * pulls := by
  unfold gacha.pull_handler at h
  split_ifs at h with h1 h2 h3 <;> try cases h
  split at h <;> try cases h
  rename_i cost hmul
  obtain ⟨hcost, _⟩ := checkedMul64_some hmul
  split_ifs at h with h4 <;> try cases h
  split at h <;> try cases h
  rename_i tv hadd
  obtain ⟨htv, _⟩ := checkedAdd64_some hadd
  subst htv hcost
  exact ⟨h3.1, h3.2, rfl⟩

/-! ## Gacha loop lemmas -/

theorem setTier_same {t : Fin 10 → Nat} {i v : Nat} {j : Fin 10} (h : (j : Nat) = i) :
    setTier t i v j = v := by
  simp [setTier, h]

theorem setTier_other {t : Fin 10 → Nat} {i v : Nat} {j : Fin 10} (h : (j : Nat) ≠ i) :
    setTier t i v j = t j := by
  simp [setTier, h]

theorem rare_toU8 {t : PrizeTier} (h : t.isRareOrBetter = true) :
    t.toU8 = 1 ∨ t.toU8 = 2 ∨ t.toU8 = 3 := by
  cases t <;> simp_all [PrizeTier.isRareOrBetter, PrizeTier.toU8]

theorem gachaStep_lt9 {cost : Nat} {vrf : Fin 32 → Nat} {i : Nat} (hi : i < 9)
    {t : Fin 10 → Nat} {tot : Nat} {flag : Bool}
    {out : (Fin 10 → Nat) × Nat × Bool}
    (h : gachaStep cost vrf i (t, tot, flag) = some out) :
    out.1 = setTier t i (rawTier vrf i).toU8 ∧
    out.2.2 = (flag || (rawTier vrf i).isRareOrBetter) := by
  unfold gachaStep at h
  rw [if_pos (by omega : i < 10)] at h
  rw [if_neg (by rintro ⟨h9, _⟩; omega)] at h
  rcases hadd : checkedAdd64 tot (wrapMul64 cost (rawTier vrf i).multiplier_bps / 10000)
      with _ | tot' <;> rw [hadd] at h
  · cases h
  · cases h
    exact ⟨rfl, rfl⟩

theorem gachaStep_pity {cost : Nat} {vrf : Fin 32 → Nat}
    {t : Fin 10 → Nat} {tot : Nat}
    {out : (Fin 10 → Nat) × Nat × Bool}
    (h : gachaStep cost vrf 9 (t, tot, false) = some out) :
    out.1 = setTier t 9 1 := by
  unfold gachaStep at h
  rw [if_pos (by omega : (9 : Nat) < 10)] at h
  rw [if_pos ⟨rfl, rfl⟩] at h
  rcases hadd : checkedAdd64 tot (wrapMul64 cost (PrizeTier.multiplier_bps .Rare) / 10000)
      with _ | tot' <;> rw [hadd] at h
  · cases h
  · cases h
    exact rfl

theorem gachaStep_9_flagged {cost : Nat} {vrf : Fin 32 → Nat}
    {t : Fin 10 → Nat} {tot : Nat}
    {out : (Fin 10 → Nat) × Nat × Bool}
    (h : gachaStep cost vrf 9 (t, tot, true) = some out) :
    out.1 = setTier t 9 (rawTier vrf 9).toU8 := by
  unfold gachaStep at h
  rw [if_pos (by omega : (9 : Nat) < 10)] at h
  rw [if_neg (by rintro ⟨_, hf⟩; cases hf)] at h
  rcases hadd : checkedAdd64 tot (wrapMul64 cost (rawTier vrf 9).multiplier_bps / 10000)
      with _ | tot' <;> rw [hadd] at h
  · cases h
  · cases h
    exact rfl

theorem gachaLoop_inv (cost : Nat) (vrf : Fin 32 → Nat) :
    ∀ n, n ≤ 9 → ∀ (t0 : Fin 10 → Nat) (out : (Fin 10 → Nat) × Nat × Bool),
      gachaLoop cost vrf n (t0, 0, false) = some out →
      (out.2.2 = true ↔ ∃ i, i < n ∧ (rawTier vrf i).isRareOrBetter = true) ∧
      (∀ j : Fin 10, (j : Nat) < n → out.1 j = (rawTier vrf (j : Nat)).toU8) ∧
      (∀ j : Fin 10, n ≤ (j : Nat) → out.1 j = t0 j) := by
  intro n
  induction n with
  | zero =>
    intro _ t0 out h
    cases h
    refine ⟨by simp, fun j hj => absurd hj (by omega), fun j _ => rfl⟩
  | succ n ih =>
    intro hn t0 out h
    rw [gachaLoop] at h
    rcases hmid : gachaLoop cost vrf n (t0, 0, false) with _ | mid <;> rw [hmid] at h
    · cases h
    · rcases mid with ⟨mt, mtot, mflag⟩
      obtain ⟨ihflag, ihlo, ihhi⟩ := ih (by omega) t0 (mt, mtot, mflag) hmid
      obtain ⟨hout1, hout2⟩ := gachaStep_lt9 (by omega : n < 9) h
      refine ⟨?_, ?_, ?_⟩
      · rw [hout2]
        simp only [Bool.or_eq_true]
        constructor
        · rintro (hf | hr)
          · obtain ⟨i, hi, hri⟩ := ihflag.mp hf
            exact ⟨i, by omega, hri⟩
          · exact ⟨n, by omega, hr⟩
        · rintro ⟨i, hi, hri⟩
          by_cases hin : i = n
          · exact Or.inr (hin ▸ hri)
          · exact Or.inl (ihflag.mpr ⟨i, by omega, hri⟩)
      · intro j hj
        rw [hout1]
        by_cases hjn : (j : Nat) = n
        · rw [setTier_same hjn, hjn]
        · rw [setTier_other hjn]
          exact ihlo j (by omega)
      · intro j hj
        rw [hout1, setTier_other (by omega)]
        exact ihhi j (by omega)

/-! ## Claim C1 -/

/-- C1: for every seed whose first four little-endian bytes are nonzero,
`calculate_crash_point` is clamped into [10000, 1000000] regardless of the
floating-point core; but at a seed whose first four bytes are all zero
(including the all-zero seed) the early `return 100` bypasses the clamp and
the result is 100 basis points (0.01×), outside the claimed range — despite
the code's own comment labelling it "1.00x" (which is 10000 in the basis
points used by the clamp). -/
theorem c1_crash_point_floor_escapes_clamp (fp : Nat → Nat) :
    calculate_crash_point fp zeroSeed = 100 ∧
    calculate_crash_point fp zeroSeed < 10000 ∧
    ∀ vrf : Fin 32 → Nat,
      u32_from_le_bytes (vrf 0) (vrf 1) (vrf 2) (vrf 3) ≠ 0 →
      10000 ≤ calculate_crash_point fp vrf ∧
        calculate_crash_point fp vrf ≤ 1000000 := by
  refine ⟨?_, ?_, ?_⟩
  · norm_num [calculate_crash_point, zeroSeed, u32_from_le_bytes]
  · norm_num [calculate_crash_point, zeroSeed, u32_from_le_bytes]
  · intro vrf hne
    unfold calculate_crash_point
    rw [if_neg hne]
    exact u32clamp_bounds _ _ _ (by norm_num)

/-- C1 witness: evaluated with the exact-rational floating-point model, the
all-zero seed yields 100 and the all-`0xFF` seed stays inside the clamp. -/
theorem c1_crash_point_floor_escapes_clamp_witness :
    calculate_crash_point crashFpRat zeroSeed = 100 ∧
    (10000 ≤ calculate_crash_point crashFpRat ffSeed ∧
      calculate_crash_point crashFpRat ffSeed ≤ 1000000) :=
  ⟨(c1_crash_point_floor_escapes_clamp crashFpRat).1,
   (c1_crash_point_floor_escapes_clamp crashFpRat).2.2 ffSeed (by decide)⟩

/-! ## Claim C10 -/

/-- C10: `calculate_jackpot_winner` is total exactly for a positive ticket
count (a zero count is a remainder-by-zero panic); `draw_jackpot` passes
`pool_size / min_bet` with no zero guard, so a betting round whose pool is
below `min_bet` (for example an empty round) panics instead of returning an
error, as does a configuration with `min_bet = 0` (division by zero). -/
theorem c10_jackpot_winner_panics_on_zero_tickets :
    (∀ (vrf : Fin 32 → Nat) (t : Nat),
        (calculate_jackpot_winner vrf t).isSome = true ↔ 0 < t) ∧
    (∀ (g : GameState) (r : RoundState) (wk : Fin 32 → Nat) (now : Int)
        (vrf : Fin 32 → Nat),
        r.phase = .Betting → r.pool_size < g.config.min_bet →
        jackpot.draw_handler g r wk now vrf = .error .panicked) ∧
    (∀ (g : GameState) (r : RoundState) (wk : Fin 32 → Nat) (now : Int)
        (vrf : Fin 32 → Nat),
        r.phase = .Betting → g.config.min_bet = 0 →
        jackpot.draw_handler g r wk now vrf = .error .panicked) := by
  refine ⟨?_, ?_, ?_⟩
  · intro vrf t
    by_cases ht : t = 0 <;> simp [calculate_jackpot_winner, rustMod, ht] <;> omega
  · intro g r wk now vrf hph hlt
    have hmin : ¬ g.config.min_bet = 0 := by omega
    simp [jackpot.draw_handler, hph, rustDiv, hmin, Nat.div_eq_of_lt hlt,
      calculate_jackpot_winner, rustMod]
  · intro g r wk now vrf hph hmin
    simp [jackpot.draw_handler, hph, rustDiv, hmin]

/-- C10 witness: five tickets give a winner index; drawing an empty
betting round under the default configuration panics. -/
theorem c10_jackpot_winner_panics_on_zero_tickets_witness :
    (calculate_jackpot_winner zeroSeed 5).isSome = true ∧
    jackpot.draw_handler gameJackpot (mkRound .Betting 0) zeroSeed 0 zeroSeed
      = .error .panicked :=
  ⟨(c10_jackpot_winner_panics_on_zero_tickets.1 zeroSeed 5).mpr (by decide),
   c10_jackpot_winner_panics_on_zero_tickets.2.1 gameJackpot (mkRound .Betting 0)
     zeroSeed 0 zeroSeed (by decide) (by decide)⟩

/-! ## Claim C4 -/

/-- C4: once a coinflip resolution succeeds the wager is non-`Pending`, so a
second resolution fails the `AlreadyResolved` account constraint before any
write (the record keeps its first-resolution payout, outcome and seed);
likewise a successfully resolved gacha batch has `resolved = true` and any
further resolution is rejected with `AlreadyResolved`. -/
theorem c4_second_resolution_rejected :
    (∀ (g g2 : GameState) (bet : PlayerBet) (now now2 : Int)
        (vrf vrf2 : Fin 32 → Nat) (bet' : PlayerBet),
        coinflip.resolve_handler g bet now vrf = .ok bet' →
        coinflip.resolve_handler g2 bet' now2 vrf2
          = .error (.casino .AlreadyResolved)) ∧
    (∀ (g g2 : GameState) (pr : GachaPullResult) (vrf vrf2 : Fin 32 → Nat)
        (pr' : GachaPullResult),
        gacha.resolve_handler g pr vrf = .ok pr' →
        gacha.resolve_handler g2 pr' vrf2 = .error (.casino .AlreadyResolved)) := by
  constructor
  · intro g g2 bet now now2 vrf vrf2 bet' h
    obtain ⟨-, -, -, -, hcase⟩ := coinflip_resolve_handler_ok h
    unfold coinflip.resolve_handler
    rcases hcase with ⟨hw, -⟩ | ⟨hw, -⟩ <;> rw [if_pos (by simp [hw])]
  · intro g g2 pr vrf vrf2 pr' h
    obtain ⟨-, hres, -⟩ := gacha_resolve_handler_ok h
    unfold gacha.resolve_handler
    rw [if_pos hres]

/-- C4 witness: re-resolving a concretely resolved coinflip bet and a
concretely resolved gacha batch both fail with `AlreadyResolved`. -/
theorem c4_second_resolution_rejected_witness :
    coinflip.resolve_handler gameFlip lostBet 4 ffSeed
      = .error (.casino .AlreadyResolved) ∧
    gacha.resolve_handler gameGacha resolvedPull1 ffSeed
      = .error (.casino .AlreadyResolved) :=
  ⟨c4_second_resolution_rejected.1 gameFlip gameFlip (mkPendingBet 1000000 1)
      3 4 zeroSeed ffSeed lostBet (by decide),
   c4_second_resolution_rejected.2 gameGacha gameGacha (mkPull 1)
      zeroSeed ffSeed resolvedPull1 rfl⟩

/-! ## Claim C6 -/

/-- C6 counterexample: with `min_bet = 1` and `house_edge_bps = 9999` the
1-lamport bet is admitted (the escrow check passes), and resolving it as a
win records outcome `Win` with `payout_amount = 0` — the win multiplier
`20000 − 2·9999 = 2` basis points truncates `1·2/10000` to zero, refuting
`payout_amount > 0 ⟺ outcome = Won`. -/
theorem c6_counterexample :
    isOkE (coinflip.play_handler gameTinyBet 2 1 2 0 255 1 .Heads) = true ∧
    outcomePayout (coinflip.resolve_handler gameTinyBet (mkPendingBet 1 0) 0 zeroSeed)
      = some (.Win, 0) :=
  ⟨by decide, by decide⟩

/-- C6 (amended): for a resolved coinflip wager whose stake times the win
multiplier `20000 − 2·house_edge_bps` is at least 10000 and below `2^64`
(so the basis-point division cannot truncate to zero and the plain `u64`
product cannot wrap), payout is positive exactly on a win, the win payout is
`bet_amount · (20000 − 2·house_edge_bps) / 10000`, and a losing wager pays
zero. -/
theorem c6_payout_iff_won {g : GameState} {bet : PlayerBet} {now : Int}
    {vrf : Fin 32 → Nat} {bet' : PlayerBet}
    (hedge : g.config.house_edge_bps * 2 ≤ 20000)
    (hlow : 10000 ≤ bet.bet_amount * (20000 - g.config.house_edge_bps * 2))
    (hhigh : bet.bet_amount * (20000 - g.config.house_edge_bps * 2) < U64M)
    (h : coinflip.resolve_handler g bet now vrf = .ok bet') :
    (0 < bet'.payout_amount ↔ bet'.outcome = .Win) ∧
    (bet'.outcome = .Win → bet'.payout_amount
        = bet.bet_amount * (20000 - g.config.house_edge_bps * 2) / 10000) ∧
    (bet'.outcome = .Lose → bet'.payout_amount = 0) := by
  obtain ⟨-, -, -, -, hcase⟩ := coinflip_resolve_handler_ok h
  have hsub : wrapSub64 20000 (g.config.house_edge_bps * 2)
      = 20000 - g.config.house_edge_bps * 2 :=
    wrapSub64_eq_sub hedge (by norm_num [U64M])
  rcases hcase with ⟨hw, hp⟩ | ⟨hw, hp⟩
  · rw [hsub, wrapMul64_eq_mul hhigh] at hp
    have hpos : 0 < bet'.payout_amount := by
      rw [hp]
      exact Nat.div_pos hlow (by norm_num)
    refine ⟨⟨fun _ => hw, fun _ => hpos⟩, fun _ => hp, fun hlose => ?_⟩
    rw [hw] at hlose
    simp at hlose
  · refine ⟨⟨fun hpos => ?_, fun hwin => ?_⟩, fun hwin => ?_, fun _ => hp⟩
    · rw [hp] at hpos
      omega
    · rw [hw] at hwin
      simp at hwin
    · rw [hw] at hwin
      simp at hwin

/-- C6 witness: the spec's worked example (10 $CC on Heads at the default
2% edge, all-zero seed) satisfies the amended statement with a 19.6 $CC
payout. -/
theorem c6_payout_iff_won_witness :
    (0 < resolvedWin.payout_amount ↔ resolvedWin.outcome = .Win) ∧
    (resolvedWin.outcome = .Win → resolvedWin.payout_amount
        = betWin.bet_amount * (20000 - gameFlip.config.house_edge_bps * 2) / 10000) ∧
    (resolvedWin.outcome = .Lose → resolvedWin.payout_amount = 0) :=
  @c6_payout_iff_won gameFlip betWin 0 zeroSeed resolvedWin
    (by decide) (by decide) (by decide) (by decide)

/-! ## Claim C9 -/

/-- C9 counterexample: resolving a pending wager with the all-zero seed
succeeds, leaving a resolved (non-`Pending`) wager whose stored seed is the
all-zero sentinel — nothing rejects a zero resolution seed. -/
theorem c9_counterexample :
    resolvedWithAllZeroSeed
      (coinflip.resolve_handler gameFlip (mkPendingBet 1000000 1) 3 zeroSeed)
      = true := by
  decide

/-- C9 (amended): the seed stored on a resolved wager equals the seed the
resolution was called with — so it is non-zero exactly when the
random-value authority supplies a non-zero seed, and the all-zero sentinel
can reappear on a resolved wager if a zero seed is supplied. -/
theorem c9_stored_seed_equals_input {g : GameState} {bet : PlayerBet}
    {now : Int} {vrf : Fin 32 → Nat} {bet' : PlayerBet}
    (h : coinflip.resolve_handler g bet now vrf = .ok bet') :
    bet'.vrf_result = vrf ∧ bet'.outcome ≠ .Pending ∧
    ((∃ i, vrf i ≠ 0) → ¬ ∀ i, bet'.vrf_result i = 0) := by
  obtain ⟨-, hseed, -, -, hcase⟩ := coinflip_resolve_handler_ok h
  have hout : bet'.outcome ≠ .Pending := by
    rcases hcase with ⟨hw, -⟩ | ⟨hw, -⟩ <;> simp [hw]
  refine ⟨hseed, hout, ?_⟩
  rintro ⟨i, hi⟩ hall
  have := hall i
  rw [hseed] at this
  exact hi this

/-- C9 witness: resolving with the all-`0xFF` seed stores that seed on the
resolved wager, which is therefore not the all-zero sentinel. -/
theorem c9_stored_seed_equals_input_witness :
    resolvedFF.vrf_result = ffSeed ∧ resolvedFF.outcome ≠ .Pending ∧
    ((∃ i, ffSeed i ≠ 0) → ¬ ∀ i, resolvedFF.vrf_result i = 0) :=
  @c9_stored_seed_equals_input gameFlip (mkPendingBet 1000000 1) 5 ffSeed
    resolvedFF rfl

/-! ## Claims C2 and C8 -/

theorem roundStep_phase_pool {fp : Nat → Nat} {r r' : RoundState}
    (h : RoundStep fp r r') :
    phaseIdx r.phase ≤ phaseIdx r'.phase ∧
    (r'.phase ≠ r.phase → r'.phase = .Ended) ∧
    (r'.pool_size ≠ r.pool_size →
      r.phase = .Betting ∧ r.pool_size < r'.pool_size ∧ r'.pool_size < U64M) := by
  rcases h with ⟨g1, p1, ri1, n1, b1, a1, _, _, pp1, hj⟩ | ⟨n1, v1, _, _, hres⟩
    | ⟨g1, pa1, p1, ri1, n1, b1, t1, _, _, pp1, hent⟩
    | ⟨g1, w1, n1, v1, _, _, pay1, hdraw⟩
  · obtain ⟨-, hbet, -, -, hlt, hr'⟩ := join_handler_ok hj
    subst hr'
    refine ⟨le_refl _, fun hne => absurd rfl hne, fun hne => ⟨hbet, ?_, hlt⟩⟩
    have hne' : r.pool_size + a1 ≠ r.pool_size := hne
    show r.pool_size < r.pool_size + a1
    omega
  · obtain ⟨-, hph, hpool⟩ := crash_resolve_handler_ok hres
    refine ⟨?_, fun _ => hph, fun hne => absurd hpool fun hp => hne hp⟩
    rw [hph]
    cases hr : r.phase <;> simp [phaseIdx]
  · obtain ⟨-, -, hbet, hph', k, hk, hpool, hlt⟩ := enter_handler_ok hent
    refine ⟨by rw [hph', hbet], fun hne => absurd (hph'.trans hbet.symm) hne,
      fun hne => ⟨hbet, ?_, by rw [hpool]; exact hlt⟩⟩
    rw [hpool] at hne ⊢
    omega
  · obtain ⟨hbet, hph', hpool⟩ := draw_handler_ok hdraw
    refine ⟨?_, fun _ => hph', fun hne => absurd hpool fun hp => hne hp⟩
    rw [hph', hbet]
    simp [phaseIdx]

theorem reachable_phase {fp : Nat → Nat} {r : RoundState}
    (h : ReachableRound fp r) : r.phase = .Betting ∨ r.phase = .Ended := by
  induction h with
  | start game auth gameId now bump g' r hs =>
    exact Or.inl (start_round_handler_ok hs).1
  | step r r' hr hstep ih =>
    obtain ⟨-, hph, -⟩ := roundStep_phase_pool hstep
    by_cases he : r'.phase = r.phase
    · rw [he]
      exact ih
    · exact Or.inr (hph he)

/-- C2: every round reachable from `start_crash_round` through any sequence
of successful instructions has phase `Betting` or `Ended` — no instruction
ever writes `Active` — so the `phase == Active` precondition of
`cashout_crash` is unsatisfiable and every `cashout_crash` call on such a
round fails with `RoundNotBetting`. -/
theorem c2_round_never_active {fp : Nat → Nat} {r : RoundState}
    (h : ReachableRound fp r) :
    (r.phase = .Betting ∨ r.phase = .Ended) ∧ r.phase ≠ .Active ∧
    ∀ (game : GameState) (participant : RoundParticipant) (now : Int),
      crash.cashout_handler game r participant now
        = .error (.casino .RoundNotBetting) := by
  have hph := reachable_phase h
  have hact : r.phase ≠ .Active := by
    rcases hph with h1 | h1 <;> simp [h1]
  refine ⟨hph, hact, fun game participant now => ?_⟩
  unfold crash.cashout_handler
  rw [if_pos hact]

/-- C2 witness: cashing out of a freshly started crash round (which is in
phase `Betting`) fails with `RoundNotBetting`. -/
theorem c2_round_never_active_witness :
    crash.cashout_handler gameCrash roundStarted freshParticipant 5
      = .error (.casino .RoundNotBetting) :=
  (@c2_round_never_active crashFpRat roundStarted
    (ReachableRound.start gameCrash 1 2 0 255
      { gameCrash with current_round := 2 } roundStarted (by decide))).2.2
    gameCrash freshParticipant 5

/-- C8: across every successful instruction execution a round's phase index
(Betting < Active < Ended) never decreases, and its pool size changes only
while the phase is `Betting`, in which case it strictly increases and stays
below `2^64` (the join/enter additions are checked); consequently along any
sequence of instructions the phase index and the pool size are monotone. -/
theorem c8_phase_forward_pool_monotone (fp : Nat → Nat) :
    (∀ r r' : RoundState, RoundStep fp r r' →
        phaseIdx r.phase ≤ phaseIdx r'.phase ∧
        (r'.pool_size ≠ r.pool_size →
          r.phase = .Betting ∧ r.pool_size < r'.pool_size ∧
          r'.pool_size < U64M)) ∧
    (∀ r r' : RoundState, Relation.ReflTransGen (RoundStep fp) r r' →
        phaseIdx r.phase ≤ phaseIdx r'.phase ∧ r.pool_size ≤ r'.pool_size) := by
  have core : ∀ r r' : RoundState, RoundStep fp r r' →
      phaseIdx r.phase ≤ phaseIdx r'.phase ∧
      (r'.pool_size ≠ r.pool_size →
        r.phase = .Betting ∧ r.pool_size < r'.pool_size ∧ r'.pool_size < U64M) :=
    fun r r' h => ⟨(roundStep_phase_pool h).1, (roundStep_phase_pool h).2.2⟩
  refine ⟨core, fun r r' hrt => ?_⟩
  induction hrt with
  | refl => exact ⟨le_refl _, le_refl _⟩
  | tail hab hbc ih =>
    obtain ⟨h1, h2⟩ := ih
    obtain ⟨h3, h4⟩ := core _ _ hbc
    have h5 : ∀ a b : RoundState, RoundStep fp a b → a.pool_size ≤ b.pool_size := by
      intro a b hstep
      by_cases he : b.pool_size = a.pool_size
      · rw [he]
      · exact le_of_lt ((core a b hstep).2 he).2.1
    exact ⟨le_trans h1 h3, le_trans h2 (h5 _ _ hbc)⟩

/-- C8 witness: a concrete 1 $CC join of an empty betting round keeps the
phase index and strictly grows the pool within the `u64` range. -/
theorem c8_phase_forward_pool_monotone_witness :
    phaseIdx (mkRound .Betting 0).phase ≤ phaseIdx roundJoined.phase ∧
    (roundJoined.pool_size ≠ (mkRound .Betting 0).pool_size →
      (mkRound .Betting 0).phase = .Betting ∧
      (mkRound .Betting 0).pool_size < roundJoined.pool_size ∧
      roundJoined.pool_size < U64M) :=
  (c8_phase_forward_pool_monotone crashFpRat).1 (mkRound .Betting 0) roundJoined
    (RoundStep.join gameCrash 1 2 0 253 1000000 (mkRound .Betting 0) roundJoined
      joinedParticipant (by decide))

/-! ## Claim C3 -/

/-- C3 counterexample: on a 10-pull batch whose bytes 0–8 map to Common and
whose byte 9 is 255 (raw tier Legendary), the recorded tier at index 9 is
`Rare` (code 1), strictly below what the raw byte maps to (Legendary,
code 3) — the pity branch overrides rather than upgrades. -/
theorem c3_counterexample :
    tierAt ⟨9, by omega⟩
        (gacha.resolve_handler gameGacha (mkPull 10) seedNinthLegendary)
      = some (PrizeTier.toU8 .Rare) ∧
    rawTier seedNinthLegendary 9 = .Legendary ∧
    PrizeTier.toU8 .Rare < PrizeTier.toU8 .Legendary :=
  ⟨by decide, by decide, by decide⟩

/-- C3 (amended): for every successfully resolved 10-pull batch, at least
one recorded tier byte is Rare, Epic or Legendary (codes 1, 2, 3); and
whenever no pull at indices 0–8 reached Rare or better, the tier recorded
at index 9 is exactly Rare (code 1) — the pity branch writes `Rare`
regardless of what byte `seed[9]` maps to, so an Epic or Legendary raw byte
at index 9 is downgraded in that situation. -/
theorem c3_ten_pull_pity {game : GameState} {pr : GachaPullResult}
    {vrf : Fin 32 → Nat} {pr' : GachaPullResult} (hcount : pr.pull_count = 10)
    (h : gacha.resolve_handler game pr vrf = .ok pr') :
    (∃ j : Fin 10, pr'.tiers j = 1 ∨ pr'.tiers j = 2 ∨ pr'.tiers j = 3) ∧
    ((∀ i : Nat, i < 9 → (rawTier vrf i).isRareOrBetter = false) →
      pr'.tiers ⟨9, by omega⟩ = 1) := by
  obtain ⟨-, -, flag, hloop0⟩ := gacha_resolve_handler_ok h
  rw [hcount] at hloop0
  have hloop : (gachaLoop game.config.min_bet vrf 9 (pr.tiers, 0, false)).bind
      (gachaStep game.config.min_bet vrf 9)
      = some (pr'.tiers, pr'.total_payout, flag) := hloop0
  rcases hmid : gachaLoop game.config.min_bet vrf 9 (pr.tiers, 0, false)
      with _ | mid <;> rw [hmid] at hloop
  · cases hloop
  · rcases mid with ⟨mt, mtot, mflag⟩
    obtain ⟨hflag, hlo, -⟩ :=
      gachaLoop_inv game.config.min_bet vrf 9 (by omega) pr.tiers
        (mt, mtot, mflag) hmid
    cases hmf : mflag
    · rw [hmf] at hloop
      have h9 : pr'.tiers = setTier mt 9 1 := gachaStep_pity hloop
      have hval : pr'.tiers ⟨9, by omega⟩ = 1 := by
        rw [h9]
        exact setTier_same rfl
      exact ⟨⟨⟨9, by omega⟩, Or.inl hval⟩, fun _ => hval⟩
    · rw [hmf] at hloop
      have h9 : pr'.tiers = setTier mt 9 (rawTier vrf 9).toU8 :=
        gachaStep_9_flagged hloop
      obtain ⟨i, hi9, hri⟩ := hflag.mp hmf
      refine ⟨⟨⟨i, by omega⟩, ?_⟩, fun hno => absurd (hno i hi9) (by simp [hri])⟩
      rw [h9, setTier_other (by simpa using Nat.ne_of_lt hi9)]
      have hmt : mt ⟨i, by omega⟩ = (rawTier vrf i).toU8 := by
        simpa using hlo ⟨i, by omega⟩ (by simpa using hi9)
      rw [hmt]
      exact rare_toU8 hri

/-- C3 witness: the all-zero seed sends every raw byte to Common, so the
resolved 10-pull batch records the pity Rare at index 9. -/
theorem c3_ten_pull_pity_witness :
    (∃ j : Fin 10,
        pityPull10.tiers j = 1 ∨ pityPull10.tiers j = 2 ∨ pityPull10.tiers j = 3) ∧
    ((∀ i : Nat, i < 9 → (rawTier zeroSeed i).isRareOrBetter = false) →
      pityPull10.tiers ⟨9, by omega⟩ = 1) :=
  @c3_ten_pull_pity gameGacha (mkPull 10) zeroSeed pityPull10 (by decide) rfl

/-! ## Claim C5 -/

/-- C5 counterexample: a jackpot entry of zero tickets is admitted
successfully (no `BetTooSmall` is raised) although the admitted token
amount `0 · min_bet = 0` is below the pool's `min_bet` — `enter_handler`
has no minimum-bet check. -/
theorem c5_counterexample :
    isOkE (jackpot.enter_handler gameJackpot (mkRound .Betting 0)
        freshParticipant 1 2 7 252 0) = true ∧
    0 * gameJackpot.config.min_bet < gameJackpot.config.min_bet :=
  ⟨by decide, by decide⟩

/-- C5 (amended): coinflip play and crash join fail with `BetTooSmall`
below `min_bet` and with `BetTooLarge` above `max_bet`; jackpot entry and
gacha pull fail with `BetTooLarge` when the computed amount exceeds
`max_bet`; but jackpot entry performs no minimum check (a zero-ticket entry
is admitted), while a gacha pull's admitted cost `min_bet · pulls` with
`pulls ≥ 1` can never lie below `min_bet`. All these checks run before any
state is written (an error leaves every record unchanged). -/
theorem c5_admission_bet_bounds :
    (∀ (g : GameState) (escrow pid gid : Nat) (now : Int) (bump bet : Nat)
        (choice : CoinChoice),
        g.is_active = true → g.game_type = .CoinFlip →
        bet < g.config.min_bet →
        coinflip.play_handler g escrow pid gid now bump bet choice
          = .error (.casino .BetTooSmall)) ∧
    (∀ (g : GameState) (escrow pid gid : Nat) (now : Int) (bump bet : Nat)
        (choice : CoinChoice),
        g.is_active = true → g.game_type = .CoinFlip →
        g.config.min_bet ≤ bet → g.config.max_bet < bet →
        coinflip.play_handler g escrow pid gid now bump bet choice
          = .error (.casino .BetTooLarge)) ∧
    (∀ (g : GameState) (r : RoundState) (pid rid : Nat) (now : Int)
        (bump bet : Nat),
        g.is_active = true → r.phase = .Betting → bet < g.config.min_bet →
        crash.join_handler g r pid rid now bump bet
          = .error (.casino .BetTooSmall)) ∧
    (∀ (g : GameState) (r : RoundState) (pid rid : Nat) (now : Int)
        (bump bet : Nat),
        g.is_active = true → r.phase = .Betting →
        g.config.min_bet ≤ bet → g.config.max_bet < bet →
        crash.join_handler g r pid rid now bump bet
          = .error (.casino .BetTooLarge)) ∧
    (∀ (g : GameState) (r : RoundState) (part : RoundParticipant)
        (pid rid : Nat) (now : Int) (bump tickets : Nat),
        g.is_active = true → g.game_type = .Jackpot → r.phase = .Betting →
        tickets * g.config.min_bet < U64M →
        g.config.max_bet < tickets * g.config.min_bet →
        jackpot.enter_handler g r part pid rid now bump tickets
          = .error (.casino .BetTooLarge)) ∧
    (∀ (g : GameState) (r : RoundState) (part : RoundParticipant)
        (pid rid : Nat) (now : Int) (bump : Nat),
        g.is_active = true → g.game_type = .Jackpot → r.phase = .Betting →
        part.joined_at = 0 → r.pool_size < U64M →
        isOkE (jackpot.enter_handler g r part pid rid now bump 0) = true) ∧
    (∀ (g : GameState) (pid gid : Nat) (now : Int) (bump pulls : Nat),
        g.is_active = true → g.game_type = .Gacha → 1 ≤ pulls → pulls ≤ 10 →
        g.config.min_bet * pulls < U64M →
        g.config.max_bet < g.config.min_bet * pulls →
        gacha.pull_handler g pid gid now bump pulls
          = .error (.casino .BetTooLarge)) ∧
    (∀ (g : GameState) (pid gid : Nat) (now : Int) (bump pulls : Nat)
        (out : GameState × GachaPullResult),
        gacha.pull_handler g pid gid now bump pulls = .ok out →
        ∃ cost, out.1.total_volume = g.total_volume + cost ∧
          g.config.min_bet ≤ cost) := by
  refine ⟨?_, ?_, ?_, ?_, ?_, ?_, ?_, ?_⟩
  · intro g escrow pid gid now bump bet choice h1 h2 h3
    unfold coinflip.play_handler
    rw [if_neg (by simp [h1]), if_neg (by simp [h2]), if_pos h3]
  · intro g escrow pid gid now bump bet choice h1 h2 h3 h4
    unfold coinflip.play_handler
    rw [if_neg (by simp [h1]), if_neg (by simp [h2]), if_neg (by omega),
      if_pos (by omega)]
  · intro g r pid rid now bump bet h1 h2 h3
    unfold crash.join_handler
    rw [if_neg (by simp [h1]), if_neg (by simp [h2]), if_pos h3]
  · intro g r pid rid now bump bet h1 h2 h3 h4
    unfold crash.join_handler
    rw [if_neg (by simp [h1]), if_neg (by simp [h2]), if_neg (by omega),
      if_pos (by omega)]
  · intro g r part pid rid now bump tickets h1 h2 h3 hmul hbig
    simp [jackpot.enter_handler, h1, h2, h3, checkedMul64, hmul, hbig]
  · intro g r part pid rid now bump h1 h2 h3 hJ hpool
    have hpool' : r.pool_size < 18446744073709551616 := by
      simpa [U64M] using hpool
    simp [jackpot.enter_handler, h1, h2, h3, hJ, checkedMul64, checkedAdd64,
      U64M, isOkE, hpool']
  · intro g pid gid now bump pulls h1 h2 h3 h4 hmul hbig
    simp [gacha.pull_handler, h1, h2, h3, h4, checkedMul64, hmul, hbig]
  · intro g pid gid now bump pulls out h
    obtain ⟨h1p, -, htv⟩ := pull_handler_ok h
    exact ⟨g.config.min_bet * pulls, htv,
      by simpa using Nat.mul_le_mul_left g.config.min_bet h1p⟩

/-- C5 witness: a 5-lamport coinflip bet under the default configuration is
rejected with `BetTooSmall`, a 2000 $CC one with `BetTooLarge`, and a
zero-ticket jackpot entry is admitted. -/
theorem c5_admission_bet_bounds_witness :
    coinflip.play_handler gameFlip 0 1 2 0 255 5 .Heads
      = .error (.casino .BetTooSmall) ∧
    coinflip.play_handler gameFlip 0 1 2 0 255 2000000000 .Heads
      = .error (.casino .BetTooLarge) ∧
    isOkE (jackpot.enter_handler gameJackpot (mkRound .Betting 0)
        freshParticipant 1 2 5 252 0) = true :=
  ⟨c5_admission_bet_bounds.1 gameFlip 0 1 2 0 255 5 .Heads
      rfl rfl (by decide),
   c5_admission_bet_bounds.2.1 gameFlip 0 1 2 0 255 2000000000 .Heads
      rfl rfl (by decide) (by decide),
   c5_admission_bet_bounds.2.2.2.2.2.1 gameJackpot (mkRound .Betting 0)
      freshParticipant 1 2 5 252 rfl rfl rfl rfl (by decide)⟩

/-! ## Claim C7 -/

/-- C7 counterexample: a 2^60-lamport bet is admissible under
`gameHugeBet`, its potential-payout product 2^60·19600 overflows `u64` and
wraps to 0, and `play_coinflip` succeeds against an *empty* escrow instead
of failing — the multiplication is plain, not checked. -/
theorem c7_counterexample :
    isOkE (coinflip.play_handler gameHugeBet 0 1 2 0 255 (2 ^ 60) .Heads)
      = true ∧
    U64M ≤ 2 ^ 60 * (20000 - gameHugeBet.config.house_edge_bps * 2) ∧
    wrapMul64 (2 ^ 60) (20000 - gameHugeBet.config.house_edge_bps * 2) = 0 :=
  ⟨by decide, by decide, by decide⟩

/-- C7 (amended): the checked operations abort instead of committing a
wrapped value — the pool-size addition in `join_crash`, the `total_volume`
and `total_fees` additions in `play_coinflip`, the ticket multiplication in
`enter_jackpot` and the cost multiplication in `pull_gacha` all end in
`Err.panicked` on overflow; but all four payout multiplications are plain
`u64` products reduced modulo 2^64 — an overflowing coinflip potential
payout raises no error (admission succeeds against the wrapped value), the
coinflip win payout, the crash cashout payout and the jackpot house cut all
commit values computed from the wrapped product. -/
theorem c7_payout_multiplications_wrap :
    (∀ (g : GameState) (r : RoundState) (pid rid : Nat) (now : Int)
        (bump bet : Nat),
        g.is_active = true → r.phase = .Betting →
        g.config.min_bet ≤ bet → bet ≤ g.config.max_bet →
        U64M ≤ r.pool_size + bet →
        crash.join_handler g r pid rid now bump bet = .error .panicked) ∧
    (∀ (g : GameState) (escrow pid gid : Nat) (now : Int) (bump bet : Nat)
        (choice : CoinChoice),
        g.is_active = true → g.game_type = .CoinFlip →
        g.config.min_bet ≤ bet → bet ≤ g.config.max_bet →
        wrapMul64 bet (wrapSub64 20000 (g.config.house_edge_bps * 2)) / 10000
          ≤ escrow →
        U64M ≤ g.total_volume + bet →
        coinflip.play_handler g escrow pid gid now bump bet choice
          = .error .panicked) ∧
    (∀ (g : GameState) (escrow pid gid : Nat) (now : Int) (bump bet : Nat)
        (choice : CoinChoice),
        g.is_active = true → g.game_type = .CoinFlip →
        g.config.min_bet ≤ bet → bet ≤ g.config.max_bet →
        wrapMul64 bet (wrapSub64 20000 (g.config.house_edge_bps * 2)) / 10000
          ≤ escrow →
        g.total_volume + bet < U64M →
        U64M ≤ g.total_fees + g.config.platform_fee_lamports →
        coinflip.play_handler g escrow pid gid now bump bet choice
          = .error .panicked) ∧
    (∀ (g : GameState) (r : RoundState) (part : RoundParticipant)
        (pid rid : Nat) (now : Int) (bump tickets : Nat),
        g.is_active = true → g.game_type = .Jackpot → r.phase = .Betting →
        U64M ≤ tickets * g.config.min_bet →
        jackpot.enter_handler g r part pid rid now bump tickets
          = .error .panicked) ∧
    (∀ (g : GameState) (pid gid : Nat) (now : Int) (bump pulls : Nat),
        g.is_active = true → g.game_type = .Gacha → 1 ≤ pulls → pulls ≤ 10 →
        U64M ≤ g.config.min_bet * pulls →
        gacha.pull_handler g pid gid now bump pulls = .error .panicked) ∧
    (∀ (g : GameState) (escrow pid gid : Nat) (now : Int) (bump bet : Nat)
        (choice : CoinChoice),
        g.is_active = true → g.game_type = .CoinFlip →
        g.config.min_bet ≤ bet → bet ≤ g.config.max_bet →
        U64M ≤ bet * (20000 - g.config.house_edge_bps * 2) →
        wrapMul64 bet (wrapSub64 20000 (g.config.house_edge_bps * 2)) / 10000
          ≤ escrow →
        g.total_volume + bet < U64M →
        g.total_fees + g.config.platform_fee_lamports < U64M →
        isOkE (coinflip.play_handler g escrow pid gid now bump bet choice)
          = true) ∧
    (∀ (g : GameState) (bet : PlayerBet) (now : Int) (vrf : Fin 32 → Nat)
        (bet' : PlayerBet),
        coinflip.resolve_handler g bet now vrf = .ok bet' →
        bet'.outcome = .Win →
        bet'.payout_amount = wrapMul64 bet.bet_amount
            (wrapSub64 20000 (g.config.house_edge_bps * 2)) / 10000) ∧
    (∀ (g : GameState) (r : RoundState) (part : RoundParticipant) (now : Int),
        r.phase = .Active → part.cashed_out = false →
        ∃ p', crash.cashout_handler g r part now = .ok p' ∧
          p'.payout = wrapMul64 part.bet_amount
              (wrapAdd32 10000 (wrapMul32 (i64AsU32 (now - r.started_at)) 100))
              / 10000) ∧
    (∀ (g : GameState) (r : RoundState) (wk : Fin 32 → Nat) (now : Int)
        (vrf : Fin 32 → Nat) (r' : RoundState) (payout : Nat),
        jackpot.draw_handler g r wk now vrf = .ok (r', payout) →
        payout = wrapSub64 r.pool_size
            (wrapMul64 r.pool_size g.config.house_edge_bps / 10000)) := by
  refine ⟨?_, ?_, ?_, ?_, ?_, ?_, ?_, ?_, ?_⟩
  · intro g r pid rid now bump bet h1 h2 h3 h4 hov
    unfold crash.join_handler
    rw [if_neg (by simp [h1]), if_neg (by simp [h2]), if_neg (by omega),
      if_neg (by omega), checkedAdd64_eq_none hov]
  · intro g escrow pid gid now bump bet choice h1 h2 h3 h4 hesc hvol
    unfold coinflip.play_handler
    rw [if_neg (by simp [h1]), if_neg (by simp [h2]), if_neg (by omega),
      if_neg (by omega), if_neg (Nat.not_lt.mpr hesc),
      checkedAdd64_eq_none hvol]
  · intro g escrow pid gid now bump bet choice h1 h2 h3 h4 hesc hvol hfee
    unfold coinflip.play_handler
    rw [if_neg (by simp [h1]), if_neg (by simp [h2]), if_neg (by omega),
      if_neg (by omega), if_neg (Nat.not_lt.mpr hesc)]
    simp only [checkedAdd64_eq_some hvol, checkedAdd64_eq_none hfee]
  · intro g r part pid rid now bump tickets h1 h2 h3 hov
    unfold jackpot.enter_handler
    rw [if_neg (by simp [h1]), if_neg (by simp [h2]), if_neg (by simp [h3]),
      checkedMul64_eq_none hov]
  · intro g pid gid now bump pulls h1 h2 h3 h4 hov
    unfold gacha.pull_handler
    rw [if_neg (by simp [h1]), if_neg (by simp [h2]),
      if_neg (not_not_intro ⟨h3, h4⟩), checkedMul64_eq_none hov]
  · intro g escrow pid gid now bump bet choice h1 h2 h3 h4 hov hesc hvol hfee
    unfold coinflip.play_handler
    rw [if_neg (by simp [h1]), if_neg (by simp [h2]), if_neg (by omega),
      if_neg (by omega), if_neg (Nat.not_lt.mpr hesc)]
    simp [checkedAdd64, hvol, hfee, isOkE]
  · intro g bet now vrf bet' h hwin
    obtain ⟨-, -, -, -, hcase⟩ := coinflip_resolve_handler_ok h
    rcases hcase with ⟨-, hp⟩ | ⟨hl, -⟩
    · exact hp
    · rw [hl] at hwin
      simp at hwin
  · intro g r part now hph hco
    unfold crash.cashout_handler
    rw [if_neg (by simp [hph]), if_neg (by simp [hco])]
    exact ⟨_, rfl, rfl⟩
  · intro g r wk now vrf r' payout h
    unfold jackpot.draw_handler at h
    split_ifs at h with h1 <;> try cases h
    split at h
    · cases h
    · split at h
      · cases h
      · cases h
        rfl

/-- C7 witness: joining a near-full pool and a 2^64-ticket jackpot entry
abort (checked arithmetic); the overflowing 2^60-lamport coinflip admission
succeeds against an empty escrow, the worked-example win payout equals the
wrapped-product formula, and a concrete jackpot draw commits the
wrapped-product house cut. -/
theorem c7_payout_multiplications_wrap_witness :
    crash.join_handler gameCrashBig bigRound 1 2 0 253 1 = .error .panicked ∧
    jackpot.enter_handler gameJackpot (mkRound .Betting 0) freshParticipant
      1 2 9 252 (2 ^ 64) = .error .panicked ∧
    isOkE (coinflip.play_handler gameHugeBet 0 3 4 1 254 (2 ^ 60) .Tails)
      = true ∧
    resolvedWin.payout_amount
      = wrapMul64 betWin.bet_amount
          (wrapSub64 20000 (gameFlip.config.house_edge_bps * 2)) / 10000 ∧
    drawnRound.2
      = wrapSub64 (mkRound .Betting 5000000).pool_size
          (wrapMul64 (mkRound .Betting 5000000).pool_size
            gameJackpot.config.house_edge_bps / 10000) :=
  ⟨c7_payout_multiplications_wrap.1 gameCrashBig bigRound 1 2 0 253 1
      rfl rfl (by decide) (by decide) (by decide),
   c7_payout_multiplications_wrap.2.2.2.1 gameJackpot (mkRound .Betting 0)
      freshParticipant 1 2 9 252 (2 ^ 64) rfl rfl rfl (by decide),
   c7_payout_multiplications_wrap.2.2.2.2.2.1 gameHugeBet 0 3 4 1 254
      (2 ^ 60) .Tails rfl rfl (by decide) (by decide) (by decide) (by decide)
      (by decide) (by decide),
   c7_payout_multiplications_wrap.2.2.2.2.2.2.1 gameFlip betWin 0 zeroSeed
      resolvedWin (by decide) (by decide),
   c7_payout_multiplications_wrap.2.2.2.2.2.2.2.2 gameJackpot
      (mkRound .Betting 5000000) zeroSeed 9 zeroSeed drawnRound.1 drawnRound.2
      rfl⟩

end CCCasino
